import Mathlib

/-!
Shallow embedding of `tfsdklog` (file `tfsdklog/sdk.go`) from the
`terraform-plugin-log` repository, together with models of its collaborators:
the internal `logging` and `hclogutils` packages (repository code outside the
examined file, modelled from the spec) and the external `hclog` sink
(boundary collaborator).

Field values (Go `interface type`) are modelled as strings: the policy engine
only compares field keys, replaces field values wholesale, and matches message
text, so the value type is irrelevant to the verified properties.
-/

namespace TfSdkLog

/-- Checks whether `pat` occurs as a contiguous sublist of the second list.
Models Go `strings.Contains` (the empty pattern is contained in everything).
Structural recursion keeps it kernel-reducible. -/
def containsSubList (pat : List Char) : List Char → Bool
  | [] => pat.isEmpty
  | s@(_ :: rest) => pat.isPrefixOf s || containsSubList pat rest

/-- String form of `containsSubList`: does `s` contain `pat` as a substring? -/
def strContainsSub (s pat : String) : Bool :=
  containsSubList pat.data s.data

/-- Fuel-indexed worker for `replaceAllLit`: replaces every non-overlapping
occurrence of `pat` (scanning left to right) with `rep`. Each step consumes at
least one character, so fuel equal to the input length suffices. -/
def replaceFuel (pat rep : List Char) : Nat → List Char → List Char
  | 0, s => s
  | fuel + 1, s =>
    match s with
    | [] => []
    | c :: rest =>
      match pat with
      | [] => c :: rest
      | _ :: ptail =>
        if pat.isPrefixOf (c :: rest) then
          rep ++ replaceFuel pat rep fuel (rest.drop ptail.length)
        else
          c :: replaceFuel pat rep fuel rest

/-- Replaces every non-overlapping occurrence of `pat` in `s` with `rep`,
scanning left to right. Models Go `strings.ReplaceAll` for a non-empty
pattern (an empty pattern is a no-op here). -/
def replaceAllLit (s pat rep : String) : String :=
  String.mk (replaceFuel pat.data rep.data s.data.length s.data)

/-- The `hclog` severity levels, ordered `Trace < Debug < Info < Warn < Error
< Off`, with the sentinel `noLevel` for an unset level. -/
inductive Level where
  | noLevel
  | trace
  | debug
  | info
  | warn
  | error
  | off
  deriving Repr, DecidableEq

/-- Numeric rank of a level, matching the `hclog` integer constants. -/
def Level.toNat : Level → Nat
  | .noLevel => 0
  | .trace => 1
  | .debug => 2
  | .info => 3
  | .warn => 4
  | .error => 5
  | .off => 6

/-- A logger emits a message at `msgLevel` iff its own minimum level does not
exceed it (boundary behaviour of the `hclog` sink; `off` silences all). -/
def levelEnabled (loggerLevel msgLevel : Level) : Bool :=
  loggerLevel.toNat ≤ msgLevel.toNat

/-- Modelled from the spec: a compiled pattern expression (`regexp.Regexp` at
the boundary), abstracted to its two uses: an unanchored match test and the
replacement of every matched span with a fixed token. -/
structure Pattern where
  MatchString : String → Bool
  ReplaceAllString : String → String

/-- Boundary model of an `hclog` logger handle: a name, a minimum level and
the permanently-bound key/value fields (its implied args). -/
structure Logger where
  name : String := ""
  level : Level := Level.noLevel
  impliedArgs : List (String × String) := []

/-- Derive a named child logger (`hclog` joins names with a dot). -/
def Logger.Named (l : Logger) (name : String) : Logger :=
  { l with name := if l.name = "" then name else l.name ++ "." ++ name }

/-- Set the logger's own minimum level. -/
def Logger.SetLevel (l : Logger) (lvl : Level) : Logger :=
  { l with level := lvl }

/-- Attach a permanently-bound key/value field (`hclog` `With`). -/
def Logger.With (l : Logger) (key value : String) : Logger :=
  { l with impliedArgs := l.impliedArgs ++ [(key, value)] }

/-- One record forwarded to the external sink: the level, logger name,
message text, the logger's permanently-bound fields and the per-call
transient fields. -/
structure Emission where
  level : Level
  name : String
  msg : String
  impliedArgs : List (String × String)
  additionalArgs : List (String × String)
  deriving Repr, DecidableEq

/-- Leveled emit on the boundary sink: zero or one emission per call, gated
by the logger's minimum level. -/
def Logger.emit (l : Logger) (lvl : Level) (msg : String)
    (additionalArgs : List (String × String)) : Option Emission :=
  if levelEnabled l.level lvl then
    some { level := lvl, name := l.name, msg := msg,
           impliedArgs := l.impliedArgs, additionalArgs := additionalArgs }
  else
    none

/-- The `hclog.LoggerOptions` creation record, with the fields `sdk.go`
reads or writes. `Output` is an opaque target tag. -/
structure LoggerOptions where
  Name : String := ""
  Level : Level := Level.noLevel
  JSONFormat : Bool := false
  IndependentLevels : Bool := false
  IncludeLocation : Bool := false
  DisableTime : Bool := false
  Output : String := ""
  AdditionalLocationOffset : Nat := 0
  deriving Repr, DecidableEq

/-- Modelled from the spec: the resolved option record produced by
`logging.ApplyLoggerOpts` from the caller's variadic options (name, minimum
level, location flag, timestamp flag, output target, location offset). -/
structure LoggerOpts where
  Name : String := ""
  Level : Level := Level.noLevel
  IncludeLocation : Bool := false
  IncludeTime : Bool := true
  Output : String := ""
  AdditionalLocationOffset : Nat := 0
  deriving Repr, DecidableEq

/-- Modelled from the spec: `logging.ApplyLoggerOpts`, the pure
resolve-defaults step over the caller's variadic options, taken here as the
already-resolved record. -/
def ApplyLoggerOpts (opts : LoggerOpts) : LoggerOpts :=
  opts

/-- Modelled from the spec: the additive PolicyStore (`logging` filtering
options, `TFLoggerOpts`): three omission rule sets and three masking rule
sets, each append-only. -/
structure TFLoggerOpts where
  omitLogWithFieldKeys : List String := []
  omitLogWithMessageRegexes : List Pattern := []
  omitLogWithMessageStrings : List String := []
  maskFieldValuesWithFieldKeys : List String := []
  maskMessageRegexes : List Pattern := []
  maskMessageStrings : List String := []

/-- The fixed mask token substituted for redacted content. -/
def logMaskingReplacementString : String := "***"

/-- Default root logger name for the SDK role. -/
def DefaultSDKRootLoggerName : String := "sdk"

/-- Default root logger name for the provider role. -/
def DefaultProviderRootLoggerName : String := "provider"

/-- Modelled from the spec: the context carrier with its logical slots — one
slot for an externally-injected host sink together with its recorded creation
options, and for each of the SDK and provider roles a logger slot, a
logger-options slot and a policy-store slot. Every setter returns a new
value (non-destructive update). -/
structure Context where
  hostSink : Option (Logger × LoggerOptions) := none
  sdkLogger : Option Logger := none
  sdkLoggerOptions : Option LoggerOptions := none
  sdkTFLoggerOpts : Option TFLoggerOpts := none
  providerLogger : Option Logger := none
  providerLoggerOptions : Option LoggerOptions := none
  providerTFLoggerOpts : Option TFLoggerOpts := none

/-- Modelled from the spec: `logging.GetSink`. -/
def GetSink (ctx : Context) : Option Logger :=
  ctx.hostSink.map Prod.fst

/-- Modelled from the spec: `logging.GetSinkOptions`. -/
def GetSinkOptions (ctx : Context) : Option LoggerOptions :=
  ctx.hostSink.map Prod.snd

/-- Modelled from the spec: `logging.GetSDKRootLogger`. -/
def GetSDKRootLogger (ctx : Context) : Option Logger :=
  ctx.sdkLogger

/-- Modelled from the spec: `logging.SetSDKRootLogger`. -/
def SetSDKRootLogger (ctx : Context) (l : Logger) : Context :=
  { ctx with sdkLogger := some l }

/-- Modelled from the spec: `logging.SetSDKRootLoggerOptions`. -/
def SetSDKRootLoggerOptions (ctx : Context) (o : LoggerOptions) : Context :=
  { ctx with sdkLoggerOptions := some o }

/-- Modelled from the spec: `logging.GetSDKRootTFLoggerOpts` — the SDK role's
policy store, an empty store if the slot is absent. -/
def GetSDKRootTFLoggerOpts (ctx : Context) : TFLoggerOpts :=
  ctx.sdkTFLoggerOpts.getD {}

/-- Modelled from the spec: `logging.SetSDKRootTFLoggerOpts`. -/
def SetSDKRootTFLoggerOpts (ctx : Context) (o : TFLoggerOpts) : Context :=
  { ctx with sdkTFLoggerOpts := some o }

/-- Modelled from the spec: `logging.SetProviderRootLogger`. -/
def SetProviderRootLogger (ctx : Context) (l : Logger) : Context :=
  { ctx with providerLogger := some l }

/-- Modelled from the spec: `logging.SetProviderRootLoggerOptions`. -/
def SetProviderRootLoggerOptions (ctx : Context) (o : LoggerOptions) : Context :=
  { ctx with providerLoggerOptions := some o }

/-- Modelled from the spec: `hclogutils.LoggerOptionsCopy`, the deep value
copy of a logger-options record; in a pure value embedding a deep copy is the
value itself (the theorems state the observable consequence: deriving a child
never changes the sink slot's recorded options). -/
def LoggerOptionsCopy (o : LoggerOptions) : LoggerOptions :=
  o

/-- Inserts one key/value pair into an accumulated argument list:
an already-present key has its value overwritten in place (last write wins),
a new key is appended (first-seen ordering). -/
def insertArg (acc : List (String × String)) (kv : String × String) :
    List (String × String) :=
  if acc.any (fun p => p.1 = kv.1) then
    acc.map (fun p => if p.1 = kv.1 then (p.1, kv.2) else p)
  else
    acc ++ [kv]

/-- Modelled from the spec: `hclogutils.MapsToArgs`, the field merger —
flattens the call's ordered field maps into one key/value argument list,
later maps overriding earlier ones on key collision. -/
def MapsToArgs (maps : List (List (String × String))) : List (String × String) :=
  maps.foldl (fun acc m => m.foldl insertArg acc) []

/-- Modelled from the spec: `logging.WithOmitLogWithFieldKeys` — appends the
keys to the field-key omission rule set. -/
def WithOmitLogWithFieldKeys (keys : List String) (l : TFLoggerOpts) : TFLoggerOpts :=
  { l with omitLogWithFieldKeys := l.omitLogWithFieldKeys ++ keys }

/-- Modelled from the spec: `logging.WithOmitLogWithMessageRegexes` — appends
the patterns to the message-pattern omission rule set. -/
def WithOmitLogWithMessageRegexes (expressions : List Pattern) (l : TFLoggerOpts) :
    TFLoggerOpts :=
  { l with omitLogWithMessageRegexes := l.omitLogWithMessageRegexes ++ expressions }

/-- Modelled from the spec: `logging.WithOmitLogWithMessageStrings` — appends
the literals to the message-literal omission rule set. -/
def WithOmitLogWithMessageStrings (matchingStrings : List String) (l : TFLoggerOpts) :
    TFLoggerOpts :=
  { l with omitLogWithMessageStrings := l.omitLogWithMessageStrings ++ matchingStrings }

/-- Modelled from the spec: `logging.WithMaskFieldValuesWithFieldKeys` —
appends the keys to the field-value masking rule set. -/
def WithMaskFieldValuesWithFieldKeys (keys : List String) (l : TFLoggerOpts) :
    TFLoggerOpts :=
  { l with maskFieldValuesWithFieldKeys := l.maskFieldValuesWithFieldKeys ++ keys }

/-- Modelled from the spec: `logging.WithMaskMessageRegexes` — appends the
patterns to the message-pattern masking rule set. -/
def WithMaskMessageRegexes (expressions : List Pattern) (l : TFLoggerOpts) :
    TFLoggerOpts :=
  { l with maskMessageRegexes := l.maskMessageRegexes ++ expressions }

/-- Modelled from the spec: `logging.WithMaskMessageStrings` — appends the
literals to the message-literal masking rule set. -/
def WithMaskMessageStrings (matchingStrings : List String) (l : TFLoggerOpts) :
    TFLoggerOpts :=
  { l with maskMessageStrings := l.maskMessageStrings ++ matchingStrings }

/-- Modelled from the spec: the Filter Policy `ShouldOmit` — short-circuiting
in order: (1) any field key of the permanent or transient fields is a member
of the field-key omission set; (2) the message matches any omission pattern;
(3) the message contains any omission literal as a substring. Only field keys
and the message text are inspected. -/
def ShouldOmit (opts : TFLoggerOpts) (msg : String)
    (impliedArgs additionalArgs : List (String × String)) : Bool :=
  (impliedArgs ++ additionalArgs).any (fun kv => opts.omitLogWithFieldKeys.contains kv.1)
  || opts.omitLogWithMessageRegexes.any (fun p => p.MatchString msg)
  || opts.omitLogWithMessageStrings.any (fun s => strContainsSub msg s)

/-- Modelled from the spec: the Mask Policy `ApplyMask` — rewrites only the
message text and the per-call transient field values, in rule-category order:
field-key masking on the transient fields, then message-pattern masking, then
message-literal masking. The logger's permanently-bound fields are received
but are not candidates for rewriting and are returned to the caller
untouched. -/
def ApplyMask (opts : TFLoggerOpts) (msg : String)
    (impliedArgs additionalArgs : List (String × String)) :
    String × List (String × String) :=
  let maskedArgs := additionalArgs.map (fun kv =>
    if opts.maskFieldValuesWithFieldKeys.contains kv.1 then
      (kv.1, logMaskingReplacementString)
    else kv)
  let msg1 := opts.maskMessageRegexes.foldl (fun m p => p.ReplaceAllString m) msg
  let msg2 := opts.maskMessageStrings.foldl
    (fun m s => replaceAllLit m s logMaskingReplacementString) msg1
  (msg2, maskedArgs)

/-- Boundary model of `hclog.New`: construct a standalone logger from a
creation record, with no permanently-bound fields. -/
def hclogNew (loggerOptions : LoggerOptions) : Logger :=
  { name := loggerOptions.Name, level := loggerOptions.Level, impliedArgs := [] }

/-- Source function `NewRootSDKLogger` from `sdk.go`: installs the SDK root logger and its
options into the context, deriving from the host sink when one is present
and synthesizing standalone options otherwise. -/
def NewRootSDKLogger (ctx : Context) (options : LoggerOpts) : Context :=
  let opts := ApplyLoggerOpts options
  let opts := if opts.Name = "" then { opts with Name := DefaultSDKRootLoggerName }
              else opts
  match ctx.hostSink with
  | some (sink, sinkLoggerOptions) =>
    let logger := sink.Named opts.Name
    let sdkLoggerOptions := LoggerOptionsCopy sinkLoggerOptions
    let sdkLoggerOptions := { sdkLoggerOptions with Name := opts.Name }
    let logger := if opts.Level ≠ Level.noLevel then logger.SetLevel opts.Level
                  else logger
    let sdkLoggerOptions := if opts.Level ≠ Level.noLevel then
                              { sdkLoggerOptions with Level := opts.Level }
                            else sdkLoggerOptions
    let ctx := SetSDKRootLogger ctx logger
    let ctx := SetSDKRootLoggerOptions ctx sdkLoggerOptions
    ctx
  | none =>
    let opts := if opts.Level = Level.noLevel then { opts with Level := Level.trace }
                else opts
    let loggerOptions : LoggerOptions :=
      { Name := opts.Name
        Level := opts.Level
        JSONFormat := true
        IndependentLevels := true
        IncludeLocation := opts.IncludeLocation
        DisableTime := !opts.IncludeTime
        Output := opts.Output
        AdditionalLocationOffset := opts.AdditionalLocationOffset }
    let ctx := SetSDKRootLogger ctx (hclogNew loggerOptions)
    let ctx := SetSDKRootLoggerOptions ctx loggerOptions
    ctx

/-- Source function `NewRootProviderLogger` from `sdk.go`: the provider-role twin of
`NewRootSDKLogger`. -/
def NewRootProviderLogger (ctx : Context) (options : LoggerOpts) : Context :=
  let opts := ApplyLoggerOpts options
  let opts := if opts.Name = "" then { opts with Name := DefaultProviderRootLoggerName }
              else opts
  match ctx.hostSink with
  | some (sink, sinkLoggerOptions) =>
    let logger := sink.Named opts.Name
    let providerLoggerOptions := LoggerOptionsCopy sinkLoggerOptions
    let providerLoggerOptions := { providerLoggerOptions with Name := opts.Name }
    let logger := if opts.Level ≠ Level.noLevel then logger.SetLevel opts.Level
                  else logger
    let providerLoggerOptions := if opts.Level ≠ Level.noLevel then
                                   { providerLoggerOptions with Level := opts.Level }
                                 else providerLoggerOptions
    let ctx := SetProviderRootLogger ctx logger
    let ctx := SetProviderRootLoggerOptions ctx providerLoggerOptions
    ctx
  | none =>
    let opts := if opts.Level = Level.noLevel then { opts with Level := Level.trace }
                else opts
    let loggerOptions : LoggerOptions :=
      { Name := opts.Name
        Level := opts.Level
        JSONFormat := true
        IndependentLevels := true
        IncludeLocation := opts.IncludeLocation
        DisableTime := !opts.IncludeTime
        Output := opts.Output
        AdditionalLocationOffset := opts.AdditionalLocationOffset }
    let ctx := SetProviderRootLogger ctx (hclogNew loggerOptions)
    let ctx := SetProviderRootLoggerOptions ctx loggerOptions
    ctx

/-- Source function `SetField` from `sdk.go`: binds a permanent field on the SDK root logger;
a no-op returning the input context when no SDK root logger is installed. -/
def SetField (ctx : Context) (key value : String) : Context :=
  match GetSDKRootLogger ctx with
  | none => ctx
  | some logger => SetSDKRootLogger ctx (logger.With key value)

/-- Source function `omitOrMask` from `sdk.go`: merges the call's field maps, reads the SDK
policy store, decides omission first, and only when not omitted applies
masking; returns `none` for an omitted entry and otherwise the rewritten
message and transient arguments. -/
def omitOrMask (ctx : Context) (logger : Logger) (msg : String)
    (additionalFields : List (List (String × String))) :
    Option (String × List (String × String)) :=
  let tfLoggerOpts := GetSDKRootTFLoggerOpts ctx
  let additionalArgs := MapsToArgs additionalFields
  let impliedArgs := logger.impliedArgs
  if ShouldOmit tfLoggerOpts msg impliedArgs additionalArgs then
    none
  else
    some (ApplyMask tfLoggerOpts msg impliedArgs additionalArgs)

/-- Source function `Trace` from `sdk.go`: emit at the trace level through the SDK root
logger, a silent no-op when none is installed. -/
def Trace (ctx : Context) (msg : String)
    (additionalFields : List (List (String × String))) : Option Emission :=
  match GetSDKRootLogger ctx with
  | none => none
  | some logger =>
    match omitOrMask ctx logger msg additionalFields with
    | none => none
    | some (msg2, additionalArgs) => logger.emit Level.trace msg2 additionalArgs

/-- Source function `Debug` from `sdk.go`: emit at the debug level through the SDK root
logger, a silent no-op when none is installed. -/
def Debug (ctx : Context) (msg : String)
    (additionalFields : List (List (String × String))) : Option Emission :=
  match GetSDKRootLogger ctx with
  | none => none
  | some logger =>
    match omitOrMask ctx logger msg additionalFields with
    | none => none
    | some (msg2, additionalArgs) => logger.emit Level.debug msg2 additionalArgs

/-- Source function `Info` from `sdk.go`: emit at the info level through the SDK root
logger, a silent no-op when none is installed. -/
def Info (ctx : Context) (msg : String)
    (additionalFields : List (List (String × String))) : Option Emission :=
  match GetSDKRootLogger ctx with
  | none => none
  | some logger =>
    match omitOrMask ctx logger msg additionalFields with
    | none => none
    | some (msg2, additionalArgs) => logger.emit Level.info msg2 additionalArgs

/-- Source function `Warn` from `sdk.go`: emit at the warn level through the SDK root
logger, a silent no-op when none is installed. -/
def Warn (ctx : Context) (msg : String)
    (additionalFields : List (List (String × String))) : Option Emission :=
  match GetSDKRootLogger ctx with
  | none => none
  | some logger =>
    match omitOrMask ctx logger msg additionalFields with
    | none => none
    | some (msg2, additionalArgs) => logger.emit Level.warn msg2 additionalArgs

/-- Source function `Error` from `sdk.go`: emit at the error level through the SDK root
logger, a silent no-op when none is installed. -/
def Error (ctx : Context) (msg : String)
    (additionalFields : List (List (String × String))) : Option Emission :=
  match GetSDKRootLogger ctx with
  | none => none
  | some logger =>
    match omitOrMask ctx logger msg additionalFields with
    | none => none
    | some (msg2, additionalArgs) => logger.emit Level.error msg2 additionalArgs

/-- Source function `OmitLogWithFieldKeys` from `sdk.go`. -/
def OmitLogWithFieldKeys (ctx : Context) (keys : List String) : Context :=
  let lOpts := GetSDKRootTFLoggerOpts ctx
  let lOpts := WithOmitLogWithFieldKeys keys lOpts
  SetSDKRootTFLoggerOpts ctx lOpts

/-- Source function `OmitLogWithMessageRegexes` from `sdk.go`. -/
def OmitLogWithMessageRegexes (ctx : Context) (expressions : List Pattern) : Context :=
  let lOpts := GetSDKRootTFLoggerOpts ctx
  let lOpts := WithOmitLogWithMessageRegexes expressions lOpts
  SetSDKRootTFLoggerOpts ctx lOpts

/-- Source function `OmitLogWithMessageStrings` from `sdk.go`. -/
def OmitLogWithMessageStrings (ctx : Context) (matchingStrings : List String) : Context :=
  let lOpts := GetSDKRootTFLoggerOpts ctx
  let lOpts := WithOmitLogWithMessageStrings matchingStrings lOpts
  SetSDKRootTFLoggerOpts ctx lOpts

/-- Source function `MaskFieldValuesWithFieldKeys` from `sdk.go`. -/
def MaskFieldValuesWithFieldKeys (ctx : Context) (keys : List String) : Context :=
  let lOpts := GetSDKRootTFLoggerOpts ctx
  let lOpts := WithMaskFieldValuesWithFieldKeys keys lOpts
  SetSDKRootTFLoggerOpts ctx lOpts

/-- Source function `MaskMessageRegexes` from `sdk.go`. -/
def MaskMessageRegexes (ctx : Context) (expressions : List Pattern) : Context :=
  let lOpts := GetSDKRootTFLoggerOpts ctx
  let lOpts := WithMaskMessageRegexes expressions lOpts
  SetSDKRootTFLoggerOpts ctx lOpts

/-- Source function `MaskMessageStrings` from `sdk.go`. -/
def MaskMessageStrings (ctx : Context) (matchingStrings : List String) : Context :=
  let lOpts := GetSDKRootTFLoggerOpts ctx
  let lOpts := WithMaskMessageStrings matchingStrings lOpts
  SetSDKRootTFLoggerOpts ctx lOpts


/-- Concrete SDK root logger used by the witnesses. -/
def wLogger : Logger :=
  { name := "sdk", level := Level.trace, impliedArgs := [] }

/-- Concrete context with an installed SDK root logger, used by witnesses. -/
def wCtx : Context :=
  { sdkLogger := some wLogger }

/-- Replaces the three provider-role slots of a context, leaving the SDK-role
slots and the host sink untouched; used to state that the emit operations
never read the provider-role slots. -/
def withProviderSlots (ctx : Context) (pl : Option Logger) (po : Option LoggerOptions)
    (pt : Option TFLoggerOpts) : Context :=
  { ctx with providerLogger := pl, providerLoggerOptions := po, providerTFLoggerOpts := pt }

/-- Concrete host sink, recorded sink options and context used by the C6
witness. -/
def mkSink : Logger :=
  { name := "host", level := Level.debug, impliedArgs := [] }

/-- Recorded creation options of the concrete host sink. -/
def mkSinkOpts : LoggerOptions :=
  { Name := "host", Level := Level.debug, JSONFormat := true,
    IndependentLevels := true, IncludeLocation := true, DisableTime := false,
    Output := "stderr", AdditionalLocationOffset := 1 }

/-- Concrete context carrying the host sink and its options. -/
def mkSinkCtx : Context :=
  { hostSink := some (mkSink, mkSinkOpts) }

/-- Logger with a permanently-bound sensitive field, for the C7 witness. -/
def wLogger7 : Logger :=
  { name := "sdk", level := Level.trace, impliedArgs := [("password", "x")] }

/-- Context whose policy masks the `password` field key, with `wLogger7`
installed, for the C7 witness. -/
def wCtx7 : Context :=
  MaskFieldValuesWithFieldKeys { sdkLogger := some wLogger7 } ["password"]

/-- The emission expected from the C7 witness call: the permanently-bound
`password` field is forwarded unmasked while the transient one is masked. -/
def wEmission7 : Emission :=
  { level := Level.trace, name := "sdk", msg := "m",
    impliedArgs := [("password", "x")],
    additionalArgs := [("password", "***"), ("id", "1")] }

/-- A concrete pattern (identity replacement) for the C8 witness. -/
def wPattern : Pattern :=
  { MatchString := fun _ => false, ReplaceAllString := fun s => s }

/-- The emission expected from the C8 witness call: both occurrences of the
masked literal are replaced. -/
def wEmission8 : Emission :=
  { level := Level.warn, name := "sdk", msg := "a *** b *** c",
    impliedArgs := [], additionalArgs := [] }

/-- Helper: an omitted entry produces no masked output and no emission at any
of the five levels. -/
theorem emits_none_of_shouldOmit (ctx : Context) (logger : Logger) (msg : String)
    (fields : List (List (String × String)))
    (hL : GetSDKRootLogger ctx = some logger)
    (hso : ShouldOmit (GetSDKRootTFLoggerOpts ctx) msg logger.impliedArgs
      (MapsToArgs fields) = true) :
    omitOrMask ctx logger msg fields = none
    ∧ Trace ctx msg fields = none ∧ Debug ctx msg fields = none
    ∧ Info ctx msg fields = none ∧ Warn ctx msg fields = none
    ∧ Error ctx msg fields = none := by
  have hom : omitOrMask ctx logger msg fields = none := by
    unfold omitOrMask
    simp [hso]
  refine ⟨hom, ?_, ?_, ?_, ?_, ?_⟩ <;>
    simp [Trace, Debug, Info, Warn, Error, hL, hom]

/-- Helper: any emission produced by one of the five emit operations carries
the logger's implied args and the masked output of `ApplyMask`. -/
theorem emission_shape (ctx : Context) (logger : Logger) (msg : String)
    (fields : List (List (String × String))) (e : Emission)
    (hL : GetSDKRootLogger ctx = some logger)
    (he : Trace ctx msg fields = some e ∨ Debug ctx msg fields = some e
      ∨ Info ctx msg fields = some e ∨ Warn ctx msg fields = some e
      ∨ Error ctx msg fields = some e) :
    e.name = logger.name
    ∧ e.impliedArgs = logger.impliedArgs
    ∧ e.msg = (ApplyMask (GetSDKRootTFLoggerOpts ctx) msg logger.impliedArgs
        (MapsToArgs fields)).1
    ∧ e.additionalArgs = (ApplyMask (GetSDKRootTFLoggerOpts ctx) msg logger.impliedArgs
        (MapsToArgs fields)).2 := by
  rcases hom : omitOrMask ctx logger msg fields with _ | ⟨m2, args⟩
  · exfalso
    rcases he with h | h | h | h | h <;>
      simp [Trace, Debug, Info, Warn, Error, hL, hom] at h
  · have hshape : (m2, args) = ApplyMask (GetSDKRootTFLoggerOpts ctx) msg
        logger.impliedArgs (MapsToArgs fields) := by
      by_cases hso : ShouldOmit (GetSDKRootTFLoggerOpts ctx) msg logger.impliedArgs
          (MapsToArgs fields) = true
      · simp [omitOrMask, hso] at hom
      · simp [omitOrMask, hso] at hom
        exact hom.symm
    have hemit : logger.emit (Level.trace) m2 args = some e
        ∨ logger.emit (Level.debug) m2 args = some e
        ∨ logger.emit (Level.info) m2 args = some e
        ∨ logger.emit (Level.warn) m2 args = some e
        ∨ logger.emit (Level.error) m2 args = some e := by
      rcases he with h | h | h | h | h <;>
        simp [Trace, Debug, Info, Warn, Error, hL, hom] at h <;>
        simp [h]
    have hrec : e.name = logger.name ∧ e.impliedArgs = logger.impliedArgs
        ∧ e.msg = m2 ∧ e.additionalArgs = args := by
      rcases hemit with h | h | h | h | h <;>
      · unfold Logger.emit at h
        split at h
        · cases h.symm
          exact ⟨rfl, rfl, rfl, rfl⟩
        · exact absurd h (by simp)
    refine ⟨hrec.1, hrec.2.1, ?_, ?_⟩
    · rw [hrec.2.2.1, ← hshape]
    · rw [hrec.2.2.2, ← hshape]

/-- C1: for every emit call on a context whose policy store omits the entry,
omission is decided strictly before masking — the masking step produces no
output (`omitOrMask` returns `none`) and nothing is forwarded to the sink at
any of the five levels, even when a masking rule would also have matched. -/
theorem omission_decided_before_masking (ctx : Context) (logger : Logger)
    (msg : String) (fields : List (List (String × String)))
    (hL : GetSDKRootLogger ctx = some logger)
    (hso : ShouldOmit (GetSDKRootTFLoggerOpts ctx) msg logger.impliedArgs
      (MapsToArgs fields) = true) :
    omitOrMask ctx logger msg fields = none
    ∧ Trace ctx msg fields = none ∧ Debug ctx msg fields = none
    ∧ Info ctx msg fields = none ∧ Warn ctx msg fields = none
    ∧ Error ctx msg fields = none :=
  emits_none_of_shouldOmit ctx logger msg fields hL hso

/-- Witness for C1: a context holding both a field-key omission rule and a
message-masking rule matching the same entry yields no emission at all. -/
theorem omission_decided_before_masking_witness :
    (GetSDKRootLogger (MaskMessageStrings (OmitLogWithFieldKeys wCtx ["password"]) ["login"])
        = some wLogger
      ∧ ShouldOmit (GetSDKRootTFLoggerOpts
          (MaskMessageStrings (OmitLogWithFieldKeys wCtx ["password"]) ["login"]))
          "login" wLogger.impliedArgs (MapsToArgs [[("password", "x")]]) = true)
    ∧ (omitOrMask (MaskMessageStrings (OmitLogWithFieldKeys wCtx ["password"]) ["login"])
          wLogger "login" [[("password", "x")]] = none
      ∧ Trace (MaskMessageStrings (OmitLogWithFieldKeys wCtx ["password"]) ["login"])
          "login" [[("password", "x")]] = none
      ∧ Debug (MaskMessageStrings (OmitLogWithFieldKeys wCtx ["password"]) ["login"])
          "login" [[("password", "x")]] = none
      ∧ Info (MaskMessageStrings (OmitLogWithFieldKeys wCtx ["password"]) ["login"])
          "login" [[("password", "x")]] = none
      ∧ Warn (MaskMessageStrings (OmitLogWithFieldKeys wCtx ["password"]) ["login"])
          "login" [[("password", "x")]] = none
      ∧ Error (MaskMessageStrings (OmitLogWithFieldKeys wCtx ["password"]) ["login"])
          "login" [[("password", "x")]] = none) :=
  ⟨⟨rfl, by decide⟩,
    omission_decided_before_masking _ wLogger "login" [[("password", "x")]] rfl (by decide)⟩

/-- C2: for every key added via `OmitLogWithFieldKeys`, every subsequent emit
call on the returned context whose merged field set (the logger's permanent
fields united with the call's merged transient fields) contains that key
produces zero emissions, regardless of message content. -/
theorem omitted_field_key_suppresses_emission (ctx : Context) (keys : List String)
    (K : String) (logger : Logger) (msg : String)
    (fields : List (List (String × String)))
    (hK : K ∈ keys)
    (hL : GetSDKRootLogger ctx = some logger)
    (hmem : K ∈ (logger.impliedArgs ++ MapsToArgs fields).map Prod.fst) :
    Trace (OmitLogWithFieldKeys ctx keys) msg fields = none
    ∧ Debug (OmitLogWithFieldKeys ctx keys) msg fields = none
    ∧ Info (OmitLogWithFieldKeys ctx keys) msg fields = none
    ∧ Warn (OmitLogWithFieldKeys ctx keys) msg fields = none
    ∧ Error (OmitLogWithFieldKeys ctx keys) msg fields = none := by
  have hL' : GetSDKRootLogger (OmitLogWithFieldKeys ctx keys) = some logger := hL
  have hso : ShouldOmit (GetSDKRootTFLoggerOpts (OmitLogWithFieldKeys ctx keys)) msg
      logger.impliedArgs (MapsToArgs fields) = true := by
    obtain ⟨kv, hkvmem, hfst⟩ := List.mem_map.mp hmem
    unfold ShouldOmit
    simp only [Bool.or_eq_true, List.any_eq_true]
    left
    left
    refine ⟨kv, hkvmem, ?_⟩
    have hkeys : (GetSDKRootTFLoggerOpts (OmitLogWithFieldKeys ctx keys)).omitLogWithFieldKeys
        = (GetSDKRootTFLoggerOpts ctx).omitLogWithFieldKeys ++ keys := rfl
    have hmem2 : kv.1 ∈ (GetSDKRootTFLoggerOpts ctx).omitLogWithFieldKeys ++ keys :=
      List.mem_append.mpr (Or.inr (by rw [hfst]; exact hK))
    rw [hkeys]
    simpa using hmem2
  exact (emits_none_of_shouldOmit _ _ _ _ hL' hso).2

/-- Witness for C2 (spec Scenario B): omitting by key `password` silences an
entry carrying a `password` field at every level. -/
theorem omitted_field_key_suppresses_emission_witness :
    ("password" ∈ ["password"]
      ∧ GetSDKRootLogger wCtx = some wLogger
      ∧ "password" ∈ (wLogger.impliedArgs
          ++ MapsToArgs [[("password", "x"), ("user", "a")]]).map Prod.fst)
    ∧ (Trace (OmitLogWithFieldKeys wCtx ["password"]) "login"
          [[("password", "x"), ("user", "a")]] = none
      ∧ Debug (OmitLogWithFieldKeys wCtx ["password"]) "login"
          [[("password", "x"), ("user", "a")]] = none
      ∧ Info (OmitLogWithFieldKeys wCtx ["password"]) "login"
          [[("password", "x"), ("user", "a")]] = none
      ∧ Warn (OmitLogWithFieldKeys wCtx ["password"]) "login"
          [[("password", "x"), ("user", "a")]] = none
      ∧ Error (OmitLogWithFieldKeys wCtx ["password"]) "login"
          [[("password", "x"), ("user", "a")]] = none) :=
  ⟨⟨by decide, rfl, by decide⟩,
    omitted_field_key_suppresses_emission wCtx ["password"] "password" wLogger "login"
      [[("password", "x"), ("user", "a")]] (by decide) rfl (by decide)⟩

/-- C3: every emit call on a context with no installed SDK root logger is a
silent no-op at all five levels. -/
theorem emit_without_root_logger_is_noop (ctx : Context) (msg : String)
    (fields : List (List (String × String)))
    (h : GetSDKRootLogger ctx = none) :
    Trace ctx msg fields = none ∧ Debug ctx msg fields = none
    ∧ Info ctx msg fields = none ∧ Warn ctx msg fields = none
    ∧ Error ctx msg fields = none := by
  refine ⟨?_, ?_, ?_, ?_, ?_⟩ <;> simp [Trace, Debug, Info, Warn, Error, h]

/-- Witness for C3: the empty context carries no root logger, and every emit
on it returns nothing. -/
theorem emit_without_root_logger_is_noop_witness :
    GetSDKRootLogger ({} : Context) = none
    ∧ (Trace ({} : Context) "m" [] = none ∧ Debug ({} : Context) "m" [] = none
      ∧ Info ({} : Context) "m" [] = none ∧ Warn ({} : Context) "m" [] = none
      ∧ Error ({} : Context) "m" [] = none) :=
  ⟨rfl, emit_without_root_logger_is_noop {} "m" [] rfl⟩

/-- C9: `SetField` on a context with no installed SDK root logger returns the
input context itself unchanged, so later lookups still find no logger. -/
theorem setfield_without_root_logger_returns_context (ctx : Context)
    (key value : String) (h : GetSDKRootLogger ctx = none) :
    SetField ctx key value = ctx
    ∧ GetSDKRootLogger (SetField ctx key value) = none := by
  have heq : SetField ctx key value = ctx := by
    unfold SetField
    rw [h]
  exact ⟨heq, by rw [heq, h]⟩

/-- Witness for C9: on the empty context, `SetField` is the identity. -/
theorem setfield_without_root_logger_returns_context_witness :
    GetSDKRootLogger ({} : Context) = none
    ∧ (SetField ({} : Context) "k" "v" = ({} : Context)
      ∧ GetSDKRootLogger (SetField ({} : Context) "k" "v") = none) :=
  ⟨rfl, setfield_without_root_logger_returns_context {} "k" "v" rfl⟩

/-- C5: each of the six policy-extension operations reads the current SDK
policy store (empty if absent), appends its rules to the matching rule set,
and returns a new context that differs from the input only in the SDK
policy-store slot; in particular two extensions made independently from the
same starting context do not observe each other's rules. -/
theorem policy_extension_additive_and_independent (ctx : Context)
    (keys strs mkeys mstrs : List String) (exprs mexprs : List Pattern) :
    OmitLogWithFieldKeys ctx keys
      = { ctx with sdkTFLoggerOpts := some { GetSDKRootTFLoggerOpts ctx with
            omitLogWithFieldKeys :=
              (GetSDKRootTFLoggerOpts ctx).omitLogWithFieldKeys ++ keys } }
    ∧ OmitLogWithMessageRegexes ctx exprs
      = { ctx with sdkTFLoggerOpts := some { GetSDKRootTFLoggerOpts ctx with
            omitLogWithMessageRegexes :=
              (GetSDKRootTFLoggerOpts ctx).omitLogWithMessageRegexes ++ exprs } }
    ∧ OmitLogWithMessageStrings ctx strs
      = { ctx with sdkTFLoggerOpts := some { GetSDKRootTFLoggerOpts ctx with
            omitLogWithMessageStrings :=
              (GetSDKRootTFLoggerOpts ctx).omitLogWithMessageStrings ++ strs } }
    ∧ MaskFieldValuesWithFieldKeys ctx mkeys
      = { ctx with sdkTFLoggerOpts := some { GetSDKRootTFLoggerOpts ctx with
            maskFieldValuesWithFieldKeys :=
              (GetSDKRootTFLoggerOpts ctx).maskFieldValuesWithFieldKeys ++ mkeys } }
    ∧ MaskMessageRegexes ctx mexprs
      = { ctx with sdkTFLoggerOpts := some { GetSDKRootTFLoggerOpts ctx with
            maskMessageRegexes :=
              (GetSDKRootTFLoggerOpts ctx).maskMessageRegexes ++ mexprs } }
    ∧ MaskMessageStrings ctx mstrs
      = { ctx with sdkTFLoggerOpts := some { GetSDKRootTFLoggerOpts ctx with
            maskMessageStrings :=
              (GetSDKRootTFLoggerOpts ctx).maskMessageStrings ++ mstrs } }
    ∧ (GetSDKRootTFLoggerOpts (OmitLogWithFieldKeys ctx keys)).maskMessageStrings
      = (GetSDKRootTFLoggerOpts ctx).maskMessageStrings
    ∧ (GetSDKRootTFLoggerOpts (MaskMessageStrings ctx mstrs)).omitLogWithFieldKeys
      = (GetSDKRootTFLoggerOpts ctx).omitLogWithFieldKeys :=
  ⟨rfl, rfl, rfl, rfl, rfl, rfl, rfl, rfl⟩

/-- C10: `SetField` and the six policy-extension operations leave all three
provider-role slots of the context unchanged, and the five emit operations
read none of the provider-role slots — replacing all three provider slots
changes no emit result. -/
theorem sdk_operations_preserve_provider_slots (ctx : Context)
    (key value msg : String) (fields : List (List (String × String)))
    (keys strs mkeys mstrs : List String) (exprs mexprs : List Pattern)
    (pl : Option Logger) (po : Option LoggerOptions) (pt : Option TFLoggerOpts) :
    ((SetField ctx key value).providerLogger = ctx.providerLogger
      ∧ (SetField ctx key value).providerLoggerOptions = ctx.providerLoggerOptions
      ∧ (SetField ctx key value).providerTFLoggerOpts = ctx.providerTFLoggerOpts)
    ∧ ((OmitLogWithFieldKeys ctx keys).providerLogger = ctx.providerLogger
      ∧ (OmitLogWithFieldKeys ctx keys).providerLoggerOptions = ctx.providerLoggerOptions
      ∧ (OmitLogWithFieldKeys ctx keys).providerTFLoggerOpts = ctx.providerTFLoggerOpts)
    ∧ ((OmitLogWithMessageRegexes ctx exprs).providerLogger = ctx.providerLogger
      ∧ (OmitLogWithMessageRegexes ctx exprs).providerLoggerOptions
        = ctx.providerLoggerOptions
      ∧ (OmitLogWithMessageRegexes ctx exprs).providerTFLoggerOpts
        = ctx.providerTFLoggerOpts)
    ∧ ((OmitLogWithMessageStrings ctx strs).providerLogger = ctx.providerLogger
      ∧ (OmitLogWithMessageStrings ctx strs).providerLoggerOptions
        = ctx.providerLoggerOptions
      ∧ (OmitLogWithMessageStrings ctx strs).providerTFLoggerOpts
        = ctx.providerTFLoggerOpts)
    ∧ ((MaskFieldValuesWithFieldKeys ctx mkeys).providerLogger = ctx.providerLogger
      ∧ (MaskFieldValuesWithFieldKeys ctx mkeys).providerLoggerOptions
        = ctx.providerLoggerOptions
      ∧ (MaskFieldValuesWithFieldKeys ctx mkeys).providerTFLoggerOpts
        = ctx.providerTFLoggerOpts)
    ∧ ((MaskMessageRegexes ctx mexprs).providerLogger = ctx.providerLogger
      ∧ (MaskMessageRegexes ctx mexprs).providerLoggerOptions = ctx.providerLoggerOptions
      ∧ (MaskMessageRegexes ctx mexprs).providerTFLoggerOpts = ctx.providerTFLoggerOpts)
    ∧ ((MaskMessageStrings ctx mstrs).providerLogger = ctx.providerLogger
      ∧ (MaskMessageStrings ctx mstrs).providerLoggerOptions = ctx.providerLoggerOptions
      ∧ (MaskMessageStrings ctx mstrs).providerTFLoggerOpts = ctx.providerTFLoggerOpts)
    ∧ (Trace (withProviderSlots ctx pl po pt) msg fields = Trace ctx msg fields
      ∧ Debug (withProviderSlots ctx pl po pt) msg fields = Debug ctx msg fields
      ∧ Info (withProviderSlots ctx pl po pt) msg fields = Info ctx msg fields
      ∧ Warn (withProviderSlots ctx pl po pt) msg fields = Warn ctx msg fields
      ∧ Error (withProviderSlots ctx pl po pt) msg fields = Error ctx msg fields) := by
  have hsf : (SetField ctx key value).providerLogger = ctx.providerLogger
      ∧ (SetField ctx key value).providerLoggerOptions = ctx.providerLoggerOptions
      ∧ (SetField ctx key value).providerTFLoggerOpts = ctx.providerTFLoggerOpts := by
    unfold SetField
    cases GetSDKRootLogger ctx <;> exact ⟨rfl, rfl, rfl⟩
  exact ⟨hsf, ⟨rfl, rfl, rfl⟩, ⟨rfl, rfl, rfl⟩, ⟨rfl, rfl, rfl⟩, ⟨rfl, rfl, rfl⟩,
    ⟨rfl, rfl, rfl⟩, ⟨rfl, rfl, rfl⟩, rfl, rfl, rfl, rfl, rfl⟩

/-- C4: creating
 a root logger (either role) on a context with no host sink
stores options with the name defaulted to the role name when unspecified, the
level defaulted to the most verbose level (trace) when unset, JSON output and
independent per-logger levels enabled, and the caller's location/timestamp
flags, offset and output target taken as given. -/
theorem standalone_root_logger_option_defaults (ctx : Context) (o : LoggerOpts)
    (h : ctx.hostSink = none) :
    (NewRootSDKLogger ctx o).sdkLoggerOptions = some
      { Name := if o.Name = "" then DefaultSDKRootLoggerName else o.Name
        Level := if o.Level = Level.noLevel then Level.trace else o.Level
        JSONFormat := true
        IndependentLevels := true
        IncludeLocation := o.IncludeLocation
        DisableTime := !o.IncludeTime
        Output := o.Output
        AdditionalLocationOffset := o.AdditionalLocationOffset }
    ∧ (NewRootProviderLogger ctx o).providerLoggerOptions = some
      { Name := if o.Name = "" then DefaultProviderRootLoggerName else o.Name
        Level := if o.Level = Level.noLevel then Level.trace else o.Level
        JSONFormat := true
        IndependentLevels := true
        IncludeLocation := o.IncludeLocation
        DisableTime := !o.IncludeTime
        Output := o.Output
        AdditionalLocationOffset := o.AdditionalLocationOffset } := by
  constructor <;>
  · simp only [NewRootSDKLogger, NewRootProviderLogger, ApplyLoggerOpts, h]
    by_cases hn : o.Name = "" <;> by_cases hl : o.Level = Level.noLevel <;>
      simp [hn, hl, SetSDKRootLogger, SetSDKRootLoggerOptions,
        SetProviderRootLogger, SetProviderRootLoggerOptions]

/-- Witness for C4 (spec Scenario A flavour): no host sink, empty options —
both roles store role-named, trace-level, JSON, independent-level options. -/
theorem standalone_root_logger_option_defaults_witness :
    ({} : Context).hostSink = none
    ∧ ((NewRootSDKLogger {} {}).sdkLoggerOptions = some
        { Name := "sdk", Level := Level.trace, JSONFormat := true,
          IndependentLevels := true, IncludeLocation := false,
          DisableTime := false, Output := "", AdditionalLocationOffset := 0 }
      ∧ (NewRootProviderLogger {} {}).providerLoggerOptions = some
        { Name := "provider", Level := Level.trace, JSONFormat := true,
          IndependentLevels := true, IncludeLocation := false,
          DisableTime := false, Output := "", AdditionalLocationOffset := 0 }) :=
  ⟨rfl, by simpa using standalone_root_logger_option_defaults {} {} rfl⟩

/-- C6: creating a root logger (either role) on a context carrying a host
sink stores a copy of the sink's recorded options in which only the name is
overridden, plus the level when the caller specified one; every other field
equals the sink's recorded value, and the sink slot's own recorded options
are left unchanged. -/
theorem sink_derived_root_logger_copies_options (ctx : Context) (o : LoggerOpts)
    (sink : Logger) (sinkOpts : LoggerOptions)
    (h : ctx.hostSink = some (sink, sinkOpts)) :
    (NewRootSDKLogger ctx o).sdkLoggerOptions = some
      { sinkOpts with
        Name := if o.Name = "" then DefaultSDKRootLoggerName else o.Name
        Level := if o.Level = Level.noLevel then sinkOpts.Level else o.Level }
    ∧ (NewRootSDKLogger ctx o).hostSink = ctx.hostSink
    ∧ (NewRootProviderLogger ctx o).providerLoggerOptions = some
      { sinkOpts with
        Name := if o.Name = "" then DefaultProviderRootLoggerName else o.Name
        Level := if o.Level = Level.noLevel then sinkOpts.Level else o.Level }
    ∧ (NewRootProviderLogger ctx o).hostSink = ctx.hostSink := by
  refine ⟨?_, ?_, ?_, ?_⟩ <;>
  · simp only [NewRootSDKLogger, NewRootProviderLogger, ApplyLoggerOpts, h]
    by_cases hn : o.Name = "" <;> by_cases hl : o.Level = Level.noLevel <;>
      simp [hn, hl, LoggerOptionsCopy, SetSDKRootLogger, SetSDKRootLoggerOptions,
        SetProviderRootLogger, SetProviderRootLoggerOptions] <;>
      exact h

/-- Witness for C6: a host sink with recorded options — the derived SDK and
provider options copy them, overriding the name and the caller's level, and
the sink slot is unchanged. -/
theorem sink_derived_root_logger_copies_options_witness :
    (mkSinkCtx.hostSink = some (mkSink, mkSinkOpts))
    ∧ ((NewRootSDKLogger mkSinkCtx { Level := Level.warn }).sdkLoggerOptions = some
        { mkSinkOpts with Name := "sdk", Level := Level.warn }
      ∧ (NewRootSDKLogger mkSinkCtx { Level := Level.warn }).hostSink = mkSinkCtx.hostSink
      ∧ (NewRootProviderLogger mkSinkCtx { Level := Level.warn }).providerLoggerOptions
        = some { mkSinkOpts with Name := "provider", Level := Level.warn }
      ∧ (NewRootProviderLogger mkSinkCtx { Level := Level.warn }).hostSink
        = mkSinkCtx.hostSink) :=
  ⟨rfl, by
    simpa using (sink_derived_root_logger_copies_options mkSinkCtx
      ({ Level := Level.warn } : LoggerOpts) mkSink mkSinkOpts rfl)⟩

/-- Helper: `ApplyMask` never changes which transient field keys exist. -/
theorem applyMask_preserves_keys (opts : TFLoggerOpts) (msg : String)
    (impliedArgs additionalArgs : List (String × String)) :
    (ApplyMask opts msg impliedArgs additionalArgs).2.map Prod.fst
      = additionalArgs.map Prod.fst := by
  simp only [ApplyMask, List.map_map]
  induction additionalArgs with
  | nil => rfl
  | cons kv rest ih =>
    simp only [List.map_cons, ih, Function.comp_apply]
    congr 1
    split <;> rfl

/-- C7: the masking step rewrites only the message text and the per-call
transient field values — any emission carries the logger's permanently-bound
fields exactly as the logger holds them, and the transient field keys are
unchanged. -/
theorem masking_leaves_permanent_fields_untouched (ctx : Context) (logger : Logger)
    (msg : String) (fields : List (List (String × String))) (e : Emission)
    (hL : GetSDKRootLogger ctx = some logger)
    (he : Trace ctx msg fields = some e ∨ Debug ctx msg fields = some e
      ∨ Info ctx msg fields = some e ∨ Warn ctx msg fields = some e
      ∨ Error ctx msg fields = some e) :
    e.impliedArgs = logger.impliedArgs
    ∧ e.additionalArgs.map Prod.fst = (MapsToArgs fields).map Prod.fst := by
  obtain ⟨-, h2, -, h4⟩ := emission_shape ctx logger msg fields e hL he
  exact ⟨h2, by rw [h4, applyMask_preserves_keys]⟩

/-- Witness for C7: masking by the `password` field key rewrites the
transient `password` value but forwards the logger's permanently-bound
`password` field untouched. -/
theorem masking_leaves_permanent_fields_untouched_witness :
    (GetSDKRootLogger wCtx7 = some wLogger7
      ∧ (Trace wCtx7 "m" [[("password", "x2"), ("id", "1")]] = some wEmission7
        ∨ Debug wCtx7 "m" [[("password", "x2"), ("id", "1")]] = some wEmission7
        ∨ Info wCtx7 "m" [[("password", "x2"), ("id", "1")]] = some wEmission7
        ∨ Warn wCtx7 "m" [[("password", "x2"), ("id", "1")]] = some wEmission7
        ∨ Error wCtx7 "m" [[("password", "x2"), ("id", "1")]] = some wEmission7))
    ∧ (wEmission7.impliedArgs = wLogger7.impliedArgs
      ∧ wEmission7.additionalArgs.map Prod.fst
        = (MapsToArgs [[("password", "x2"), ("id", "1")]]).map Prod.fst) :=
  ⟨⟨rfl, Or.inl (by decide)⟩,
    masking_leaves_permanent_fields_untouched wCtx7 wLogger7 "m"
      [[("password", "x2"), ("id", "1")]] wEmission7 rfl (Or.inl (by decide))⟩

/-- C8: with no prior message-masking rules, adding one literal via
`MaskMessageStrings` makes every non-omitted emission carry the message with
every non-overlapping occurrence of the literal replaced by the mask token;
likewise one pattern added via `MaskMessageRegexes` yields the pattern's
replace-all applied to the message. -/
theorem mask_message_literal_replaces_all_occurrences (ctx : Context)
    (lit : String) (p : Pattern) (msg : String)
    (fields : List (List (String × String))) (e : Emission)
    (hr : (GetSDKRootTFLoggerOpts ctx).maskMessageRegexes = [])
    (hs : (GetSDKRootTFLoggerOpts ctx).maskMessageStrings = [])
    (he : Trace (MaskMessageStrings ctx [lit]) msg fields = some e
      ∨ Debug (MaskMessageStrings ctx [lit]) msg fields = some e
      ∨ Info (MaskMessageStrings ctx [lit]) msg fields = some e
      ∨ Warn (MaskMessageStrings ctx [lit]) msg fields = some e
      ∨ Error (MaskMessageStrings ctx [lit]) msg fields = some e) :
    e.msg = replaceAllLit msg lit logMaskingReplacementString
    ∧ ∀ e2, (Trace (MaskMessageRegexes ctx [p]) msg fields = some e2
        ∨ Debug (MaskMessageRegexes ctx [p]) msg fields = some e2
        ∨ Info (MaskMessageRegexes ctx [p]) msg fields = some e2
        ∨ Warn (MaskMessageRegexes ctx [p]) msg fields = some e2
        ∨ Error (MaskMessageRegexes ctx [p]) msg fields = some e2) →
        e2.msg = p.ReplaceAllString msg := by
  constructor
  · rcases hLc : GetSDKRootLogger ctx with _ | logger
    · exfalso
      rcases he with h | h | h | h | h <;>
        simp [Trace, Debug, Info, Warn, Error, show GetSDKRootLogger
          (MaskMessageStrings ctx [lit]) = none from hLc] at h
    · obtain ⟨-, -, h3, -⟩ := emission_shape (MaskMessageStrings ctx [lit]) logger
        msg fields e hLc he
      rw [h3]
      have hopts : GetSDKRootTFLoggerOpts (MaskMessageStrings ctx [lit])
          = { GetSDKRootTFLoggerOpts ctx with maskMessageStrings :=
              (GetSDKRootTFLoggerOpts ctx).maskMessageStrings ++ [lit] } := rfl
      rw [hopts]
      simp [ApplyMask, hr, hs]
  · intro e2 he2
    rcases hLc : GetSDKRootLogger ctx with _ | logger
    · exfalso
      rcases he2 with h | h | h | h | h <;>
        simp [Trace, Debug, Info, Warn, Error, show GetSDKRootLogger
          (MaskMessageRegexes ctx [p]) = none from hLc] at h
    · obtain ⟨-, -, h3, -⟩ := emission_shape (MaskMessageRegexes ctx [p]) logger
        msg fields e2 hLc he2
      rw [h3]
      have hopts : GetSDKRootTFLoggerOpts (MaskMessageRegexes ctx [p])
          = { GetSDKRootTFLoggerOpts ctx with maskMessageRegexes :=
              (GetSDKRootTFLoggerOpts ctx).maskMessageRegexes ++ [p] } := rfl
      rw [hopts]
      simp [ApplyMask, hr, hs]

/-- Witness for C8 (spec Scenario C flavour): masking the literal `secret`
rewrites a message holding two occurrences so that both are replaced by the
mask token. -/
theorem mask_message_literal_replaces_all_occurrences_witness :
    ((GetSDKRootTFLoggerOpts wCtx).maskMessageRegexes = []
      ∧ (GetSDKRootTFLoggerOpts wCtx).maskMessageStrings = []
      ∧ (Trace (MaskMessageStrings wCtx ["secret"]) "a secret b secret c" []
            = some wEmission8
        ∨ Debug (MaskMessageStrings wCtx ["secret"]) "a secret b secret c" []
            = some wEmission8
        ∨ Info (MaskMessageStrings wCtx ["secret"]) "a secret b secret c" []
            = some wEmission8
        ∨ Warn (MaskMessageStrings wCtx ["secret"]) "a secret b secret c" []
            = some wEmission8
        ∨ Error (MaskMessageStrings wCtx ["secret"]) "a secret b secret c" []
            = some wEmission8))
    ∧ (wEmission8.msg = replaceAllLit "a secret b secret c" "secret"
        logMaskingReplacementString
      ∧ ∀ e2, (Trace (MaskMessageRegexes wCtx [wPattern]) "a secret b secret c" []
            = some e2
        ∨ Debug (MaskMessageRegexes wCtx [wPattern]) "a secret b secret c" []
            = some e2
        ∨ Info (MaskMessageRegexes wCtx [wPattern]) "a secret b secret c" []
            = some e2
        ∨ Warn (MaskMessageRegexes wCtx [wPattern]) "a secret b secret c" []
            = some e2
        ∨ Error (MaskMessageRegexes wCtx [wPattern]) "a secret b secret c" []
            = some e2) →
        e2.msg = wPattern.ReplaceAllString "a secret b secret c") :=
  ⟨⟨rfl, rfl, Or.inr (Or.inr (Or.inr (Or.inl (by decide))))⟩,
    mask_message_literal_replaces_all_occurrences wCtx "secret" wPattern
      "a secret b secret c" [] wEmission8 rfl rfl
      (Or.inr (Or.inr (Or.inr (Or.inl (by decide)))))⟩


end TfSdkLog
